import Mathlib

/-!
Verification development for the flowgraph repository (collector.py, store.py,
analytics.py).  The data model and operations below are shallow embeddings of
the Python source: database tables become lists of rows, the SQLAlchemy queries
become list filters, the per-record bodies of the consumer loops become pure
step functions, and calls into the external `netflow` and `networkx` libraries
are modelled after those libraries' documented behaviour (noted at each such
definition).
-/

namespace FlowGraph

/-- A persisted flow row: class `Flow` in store.py (table `flows`).  Addresses
are modelled as naturals, timestamps as integers.  The `id` column (a fresh
UUID per inserted row) plays no role in any query and is omitted; row
multiplicity is represented by list membership/count. -/
structure Flow where
  source_address : Nat
  destination_address : Nat
  source_port : Nat
  destination_port : Nat
  protocol : Nat
  start : Int
  «end» : Int
  deriving DecidableEq, Repr, Inhabited

/-- First disjunct of the `or_` in `InboundFlowStore.run` (store.py lines
113-120): same orientation, same ports, same protocol, same start. -/
def matchesSame (existing incoming : Flow) : Bool :=
  existing.source_address == incoming.source_address &&
  existing.destination_address == incoming.destination_address &&
  existing.source_port == incoming.source_port &&
  existing.destination_port == incoming.destination_port &&
  existing.protocol == incoming.protocol &&
  existing.start == incoming.start

/-- Second disjunct of the `or_` in `InboundFlowStore.run` (store.py lines
121-128): swapped orientation (addresses and ports exchanged), same protocol,
same start. -/
def matchesSwapped (existing incoming : Flow) : Bool :=
  existing.source_address == incoming.destination_address &&
  existing.destination_address == incoming.source_address &&
  existing.source_port == incoming.destination_port &&
  existing.destination_port == incoming.source_port &&
  existing.protocol == incoming.protocol &&
  existing.start == incoming.start

/-- The full `or_` filter of the correlation query (store.py lines 111-129). -/
def matchesEither (existing incoming : Flow) : Bool :=
  matchesSame existing incoming || matchesSwapped existing incoming

namespace InboundFlowStore

/-- One iteration of the while-loop body of `InboundFlowStore.run` (store.py
lines 109-140) for a single dequeued record.  Every row matching the query has
its `end` column set to the incoming record's `end`.  Note that the `continue`
at store.py line 134 is the final statement of the update *for* loop body, so
it only advances that for loop; control always falls through to
`session.add(flow)` at line 138, hence the incoming record is appended as a new
row unconditionally. -/
def processFlow (db : List Flow) (flow : Flow) : List Flow :=
  (db.map fun e => if matchesEither e flow then { e with «end» := flow.«end» } else e) ++ [flow]

/-- Sequential processing of a list of queued records by the single writer
thread (`InboundFlowStore.run`'s loop, one `queue.get` per record). -/
def run (db : List Flow) (records : List Flow) : List Flow :=
  records.foldl processFlow db

end InboundFlowStore

namespace AnalyticsFlowStore

/-- The wide search `AnalyticsFlowStore.get_interseting_flows` (store.py lines
164-174): all rows with the given protocol number and destination port. -/
def get_interseting_flows (db : List Flow) (protocol port : Nat) : List Flow :=
  db.filter fun f => f.protocol == protocol && f.destination_port == port

/-- The deep search `AnalyticsFlowStore.get_interseting_flows_deep` (store.py
lines 176-188): protocol, destination port, source address and
`Flow.start >= start`.  The `end` parameter is accepted but the
`Flow.end <= end` conjunct is commented out in the source (line 187), so the
parameter is unused. -/
def get_interseting_flows_deep (db : List Flow) (protocol port source_address : Nat)
    (start «end» : Int) : List Flow :=
  db.filter fun f =>
    f.protocol == protocol && f.destination_port == port &&
    f.source_address == source_address && decide (f.start ≥ start)

end AnalyticsFlowStore

/-- Record `A:1234 -> B:22`, protocol 6, start 0, end 10 (A = 1, B = 2). -/
def c1r1 : Flow := ⟨1, 2, 1234, 22, 6, 0, 10⟩

/-- Record `B:22 -> A:1234` (swapped orientation), protocol 6, start 0, end 20. -/
def c1r2 : Flow := ⟨2, 1, 22, 1234, 6, 0, 20⟩

/-- C1: refuted on the code.  Processing `A:1234 -> B:22` and then the
swapped-orientation report `B:22 -> A:1234` (same protocol, same start) from an
empty store leaves TWO rows matching the unordered endpoint pair / protocol /
start key, not one: the `continue` in the update for-loop of
`InboundFlowStore.run` never skips the unconditional insert. -/
theorem c1_swapped_orientation_leaves_two_rows :
    (InboundFlowStore.run [] [c1r1, c1r2]).countP (fun e => matchesEither e c1r1) = 2 ∧
    (InboundFlowStore.run [] [c1r1, c1r2]).length = 2 := by
  decide

/-- A store already holding one flow `3:1000 -> 4:3389`, protocol 6, start 5. -/
def c2db : List Flow := [⟨3, 4, 1000, 3389, 6, 5, 50⟩]

/-- An incoming record matching `c2db`'s row in swapped orientation. -/
def c2r : Flow := ⟨4, 3, 3389, 1000, 6, 5, 60⟩

/-- C2: refuted on the code.  Although a matching row exists (so the claim says
no new row may be inserted), `InboundFlowStore.run` still appends the incoming
record as a new row: the store grows from one row to two. -/
theorem c2_match_still_inserts_new_row :
    c2db.countP (fun e => matchesEither e c2r) = 1 ∧
    (InboundFlowStore.processFlow c2db c2r).length = c2db.length + 1 := by
  decide

/-- An existing row with `end` = 100. -/
def c5e : Flow := ⟨1, 2, 1234, 22, 6, 0, 100⟩

/-- An incoming record for the same logical flow reporting the earlier
`end` = 50. -/
def c5r : Flow := ⟨1, 2, 1234, 22, 6, 0, 50⟩

/-- C5 counterexample: a merge can DECREASE `end`.  The incoming record matches
the stored row but carries an earlier `end`; after the merge the stored row's
`end` is 50 < 100. -/
theorem c5_end_time_decreases_on_merge :
    matchesEither c5e c5r = true ∧
    ((InboundFlowStore.processFlow [c5e] c5r).getD 0 c5e).«end» < c5e.«end» := by
  decide

/-- C5 amended: every merge performed by `InboundFlowStore.run` sets the
matched row's `end` to the incoming record's `end` unconditionally (so `end`
decreases whenever the incoming record reports an earlier end). -/
theorem c5_merge_sets_end_to_incoming (db : List Flow) (flow e : Flow)
    (he : e ∈ db) (hm : matchesEither e flow = true) :
    { e with «end» := flow.«end» } ∈ InboundFlowStore.processFlow db flow := by
  unfold InboundFlowStore.processFlow
  refine List.mem_append_left _ ?_
  refine List.mem_map.2 ⟨e, he, ?_⟩
  simp [hm]

/-- Witness for `c5_merge_sets_end_to_incoming` at a concrete store. -/
theorem c5_merge_sets_end_to_incoming_witness :
    { c5e with «end» := c5r.«end» } ∈ InboundFlowStore.processFlow [c5e] c5r :=
  c5_merge_sets_end_to_incoming [c5e] c5r c5e (by decide) (by decide)

/-- C7: the deep search returns exactly the rows with the given protocol,
destination port and source address whose `start` is at least the lower bound,
and the `end` parameter does not affect the result: two calls differing only in
`end` return the same list. -/
theorem c7_deep_search_characterization (db : List Flow)
    (protocol port source_address : Nat) (start e₁ e₂ : Int) :
    (∀ f : Flow,
      f ∈ AnalyticsFlowStore.get_interseting_flows_deep db protocol port source_address start e₁ ↔
        f ∈ db ∧ f.protocol = protocol ∧ f.destination_port = port ∧
          f.source_address = source_address ∧ f.start ≥ start) ∧
    AnalyticsFlowStore.get_interseting_flows_deep db protocol port source_address start e₁ =
      AnalyticsFlowStore.get_interseting_flows_deep db protocol port source_address start e₂ := by
  constructor
  · intro f
    simp [AnalyticsFlowStore.get_interseting_flows_deep, List.mem_filter, and_assoc]
  · rfl

/-- Template tables kept by the decode loop: `templates = {"netflow": {}, "ipfix": {}}`
(collector.py line 157).  Only the set of known template identifiers per
protocol family is relevant to control flow, so each table is the list of known
identifiers. -/
structure TemplateState where
  netflow : List Nat
  ipfix : List Nat
  deriving DecidableEq, Repr, Inhabited

/-- Header of a decoded export: version, device timestamp and device uptime
(the fields read by `Collector._process_export`). -/
structure ExportHeader where
  version : Nat
  timestamp : Int
  uptime : Int
  deriving DecidableEq, Repr, Inhabited

/-- One flow record inside an export, with the fields `_process_export` reads:
`IP_PROTOCOL_VERSION` (absent or a number), the v4/v6 address pairs, ports,
protocol number and the first/last-seen offsets. -/
structure NFRecord where
  ip_protocol_version : Option Nat
  ipv4_src_addr : Nat
  ipv4_dst_addr : Nat
  ipv6_src_addr : Nat
  ipv6_dst_addr : Nat
  l4_src_port : Nat
  l4_dst_port : Nat
  protocol : Nat
  first_switched : Int
  last_switched : Int
  deriving DecidableEq, Repr, Inhabited

/-- A canonical flow event emitted by the decode loop (one line of output of
`_process_export` per record). -/
structure FlowRecord where
  src_ip : Nat
  dst_ip : Nat
  src_port : Nat
  dst_port : Nat
  protocol : Nat
  start_time : Int
  end_time : Int
  deriving DecidableEq, Repr, Inhabited

/-- A successfully decoded export as returned by `netflow.parse_packet`. -/
structure Export where
  header : ExportHeader
  flows : List NFRecord
  contains_new_templates : Bool
  deriving DecidableEq, Repr, Inhabited

/-- The decode-relevant content of a raw packet: arrival time `ts` (as stored
in `RawPacket`), wire version, the template identifiers the packet defines, the
template identifiers its data records reference, the header fields and the flow
records its body would yield once decodable. -/
structure Packet where
  ts : Int
  version : Nat
  defines : List Nat
  uses : List Nat
  header_timestamp : Int
  header_uptime : Int
  flows : List NFRecord
  deriving DecidableEq, Repr, Inhabited

/-- Outcome of one `netflow.parse_packet` call: the two exceptions the
collector handles, or success carrying the updated template tables and the
export. -/
inductive ParseResult where
  | unknownVersion : ParseResult
  | templateNotRecognized : ParseResult
  | ok : TemplateState → Export → ParseResult
  deriving DecidableEq, Repr

/-- Model of the external `netflow` library's `parse_packet` (collector.py
calls it at lines 172 and 193).  Modelled after the library's documented
behaviour: versions 1/5/9/10 are supported and any other version raises
`UnknownExportVersion`; for v9 (netflow family) and v10 (IPFIX family) the
templates defined by the packet are added to the family's table, and if a data
record references a template identifier not then known the corresponding
`TemplateNotRecognized` exception is raised; on success the export reports
whether the packet contained template definitions (`contains_new_templates`). -/
def parse_packet (templates : TemplateState) (p : Packet) : ParseResult :=
  if p.version = 9 then
    let known := templates.netflow ++ p.defines
    if p.uses.all (fun t => known.contains t) then
      ParseResult.ok { templates with netflow := known }
        ⟨⟨9, p.header_timestamp, p.header_uptime⟩, p.flows, !p.defines.isEmpty⟩
    else ParseResult.templateNotRecognized
  else if p.version = 10 then
    let known := templates.ipfix ++ p.defines
    if p.uses.all (fun t => known.contains t) then
      ParseResult.ok { templates with ipfix := known }
        ⟨⟨10, p.header_timestamp, p.header_uptime⟩, p.flows, !p.defines.isEmpty⟩
    else ParseResult.templateNotRecognized
  else if p.version = 1 ∨ p.version = 5 then
    ParseResult.ok templates ⟨⟨p.version, p.header_timestamp, p.header_uptime⟩, p.flows, false⟩
  else ParseResult.unknownVersion

namespace Collector

/-- `Collector.TIMEOUT` (collector.py line 50). -/
def TIMEOUT : Int := 3600

/-- `Collector._process_export` (collector.py lines 117-148): computes
`boot_time = header.timestamp - header.uptime` and emits, per flow record, one
canonical record whose addresses are the v4 pair when `IP_PROTOCOL_VERSION` is
absent or 4 and the v6 pair otherwise, and whose start/end times are
`FIRST_SWITCHED + boot_time` and `LAST_SWITCHED + boot_time`. -/
def _process_export (e : Export) : List FlowRecord :=
  let boot_time := e.header.timestamp - e.header.uptime
  e.flows.map fun f =>
    if f.ip_protocol_version = none ∨ f.ip_protocol_version = some 4 then
      ⟨f.ipv4_src_addr, f.ipv4_dst_addr, f.l4_src_port, f.l4_dst_port, f.protocol,
        f.first_switched + boot_time, f.last_switched + boot_time⟩
    else
      ⟨f.ipv6_src_addr, f.ipv6_dst_addr, f.l4_src_port, f.l4_dst_port, f.protocol,
        f.first_switched + boot_time, f.last_switched + boot_time⟩

/-- State of the decode loop: the template tables, the `to_retry` list of
pending packets and the flow records emitted so far. -/
structure CState where
  templates : TemplateState
  to_retry : List Packet
  emitted : List FlowRecord
  deriving DecidableEq, Repr

/-- The retry sweep body (collector.py lines 192-194): each pending packet is
re-parsed — with NO surrounding try/except — and its export processed.  The
third component reports whether a parse raised (in the source the exception
would propagate out of `Collector.run` and terminate the thread); in that case
the sweep stops at the raising packet and the records emitted so far are kept
(they were printed before the raise). -/
def retrySweep (templates : TemplateState) (pending : List Packet)
    (emitted : List FlowRecord) : TemplateState × List FlowRecord × Bool :=
  match pending with
  | [] => (templates, emitted, false)
  | p :: rest =>
    match parse_packet templates p with
    | ParseResult.ok t' e => retrySweep t' rest (emitted ++ _process_export e)
    | _ => (templates, emitted, true)

/-- One iteration of the while-loop body of `Collector.run` (collector.py lines
162-195) for a single dequeued packet, at wall-clock time `now`
(`time.time()` at the timeout check).  Returns the new state and whether the
iteration raised an uncaught exception (killing the thread).  Branches follow
the source: `UnknownExportVersion` is logged and dropped; `TemplateNotRecognized`
drops the packet when it is older than `TIMEOUT` and otherwise appends it to
`to_retry`; on success the export's records are emitted and, when the export is
v9/v10, contained new templates and `to_retry` is non-empty, the retry sweep
runs and then `to_retry.clear()` empties the pending list. -/
def run_step (s : CState) (now : Int) (p : Packet) : CState × Bool :=
  match parse_packet s.templates p with
  | ParseResult.unknownVersion => (s, false)
  | ParseResult.templateNotRecognized =>
    if now - p.ts > TIMEOUT then (s, false)
    else ({ s with to_retry := s.to_retry ++ [p] }, false)
  | ParseResult.ok t' e =>
    let s₁ : CState := ⟨t', s.to_retry, s.emitted ++ _process_export e⟩
    if (e.header.version = 9 ∨ e.header.version = 10) ∧
        e.contains_new_templates = true ∧ s₁.to_retry ≠ [] then
      match retrySweep t' s₁.to_retry s₁.emitted with
      | (t₂, em₂, crashed) =>
        if crashed then (⟨t₂, s₁.to_retry, em₂⟩, true)
        else (⟨t₂, [], em₂⟩, false)
    else (s₁, false)

/-- The emitted list of a sweep extends the accumulator it was given. -/
theorem retrySweep_emitted_extends (pending : List Packet) :
    ∀ (templates : TemplateState) (emitted : List FlowRecord),
      ∃ extra : List FlowRecord,
        (retrySweep templates pending emitted).2.1 = emitted ++ extra := by
  induction pending with
  | nil => exact fun templates emitted => ⟨[], by simp [retrySweep]⟩
  | cons p rest ih =>
    intro templates emitted
    unfold retrySweep
    match hp : parse_packet templates p with
    | ParseResult.unknownVersion => exact ⟨[], by simp⟩
    | ParseResult.templateNotRecognized => exact ⟨[], by simp⟩
    | ParseResult.ok t' e =>
      obtain ⟨extra, hextra⟩ := ih t' (emitted ++ _process_export e)
      exact ⟨_process_export e ++ extra, by simp [hextra]⟩

end Collector

/-- A pending v9 packet whose data records reference the still-unknown template
identifier 5. -/
def c3P : Packet := ⟨0, 9, [], [5], 1000, 100, [⟨some 4, 10, 11, 0, 0, 40000, 22, 6, 100, 200⟩]⟩

/-- A v9 packet defining template 7 (a template the pending packet does not
use), with no data records. -/
def c3Q : Packet := ⟨100, 9, [7], [], 2000, 100, []⟩

/-- Loop state holding `c3P` in the pending list, with empty template tables. -/
def c3s : Collector.CState := ⟨⟨[], []⟩, [c3P], []⟩

/-- C3: refuted on the code.  When a successfully decoded export introduces new
templates and triggers the retry sweep, a pending packet whose template is
STILL unknown makes `netflow.parse_packet` raise inside the sweep's for loop
(collector.py line 193), which has no try/except: the decode loop fails (the
collector thread terminates) instead of keeping the packet pending. -/
theorem c3_retry_sweep_crashes_on_unknown_template :
    parse_packet c3s.templates c3P = ParseResult.templateNotRecognized ∧
    (Collector.run_step c3s 100 c3Q).2 = true := by
  decide

/-- A pending v9 packet (arrived at time 0) referencing the unknown template 5,
carrying one data record. -/
def c4P : Packet := ⟨0, 9, [], [5], 1000, 100, [⟨none, 10, 11, 0, 0, 50000, 22, 6, 100, 200⟩]⟩

/-- A v9 packet arriving much later that defines template 5. -/
def c4Q : Packet := ⟨3900, 9, [5], [], 2000, 100, []⟩

/-- Loop state holding `c4P` in the pending list. -/
def c4s : Collector.CState := ⟨⟨[], []⟩, [c4P], []⟩

/-- C4 counterexample: at time 4000 the pending packet `c4P` is 4000 seconds
old — beyond the 3600-second window — yet the retry sweep triggered by the
template-defining packet `c4Q` re-parses it with no age check (collector.py
lines 192-194) and its flow record IS emitted. -/
theorem c4_expired_pending_packet_decoded_in_sweep :
    4000 - c4P.ts > Collector.TIMEOUT ∧
    (Collector.run_step c4s 4000 c4Q).1.emitted = [⟨10, 11, 50000, 22, 6, 1000, 1100⟩] ∧
    (Collector.run_step c4s 4000 c4Q).2 = false := by
  decide

/-- C4 amended: the 3600-second age check applies only when an initial decode
attempt fails with an unknown template (collector.py line 177): such a packet
is then dropped outright — not added to the pending set, no records emitted, no
other state change.  (Packets already pending are re-decoded by a retry sweep
regardless of age, per `c4_expired_pending_packet_decoded_in_sweep`.) -/
theorem c4_initial_attempt_timeout_drops_packet (s : Collector.CState) (now : Int)
    (p : Packet) (hp : parse_packet s.templates p = ParseResult.templateNotRecognized)
    (ht : now - p.ts > Collector.TIMEOUT) :
    Collector.run_step s now p = (s, false) := by
  unfold Collector.run_step
  rw [hp]
  simp [ht]

/-- A packet whose initial decode attempt fails with an unknown template. -/
def c4wP : Packet := ⟨0, 9, [], [5], 0, 0, []⟩

/-- An empty loop state. -/
def c4ws : Collector.CState := ⟨⟨[], []⟩, [], []⟩

/-- Witness for `c4_initial_attempt_timeout_drops_packet` at time 4000. -/
theorem c4_initial_attempt_timeout_drops_packet_witness :
    Collector.run_step c4ws 4000 c4wP = (c4ws, false) :=
  c4_initial_attempt_timeout_drops_packet c4ws 4000 c4wP (by decide) (by decide)

/-- C6: every initial decode attempt ends in exactly one of the three source
branches (collector.py lines 171-186): an unrecognized export version leaves
the state unchanged (logged, permanently dropped, never pending, no records); a
packet referencing an unknown template while within the age limit is appended
to the pending list as the only state change (no decode error, no records); and
a successfully parsed packet has its export processed, emitting exactly one
`FlowRecord` per flow record in its body (further records may follow from the
retry sweep). -/
theorem c6_initial_decode_trichotomy (s : Collector.CState) (now : Int) (p : Packet) :
    (parse_packet s.templates p = ParseResult.unknownVersion →
      Collector.run_step s now p = (s, false)) ∧
    (parse_packet s.templates p = ParseResult.templateNotRecognized →
      now - p.ts ≤ Collector.TIMEOUT →
      Collector.run_step s now p = ({ s with to_retry := s.to_retry ++ [p] }, false)) ∧
    (∀ (t' : TemplateState) (e : Export),
      parse_packet s.templates p = ParseResult.ok t' e →
      ((Collector.run_step s now p).1.emitted).take
          (s.emitted.length + (Collector._process_export e).length) =
        s.emitted ++ Collector._process_export e ∧
      (Collector._process_export e).length = e.flows.length) := by
  refine ⟨?_, ?_, ?_⟩
  · intro hp
    unfold Collector.run_step
    rw [hp]
  · intro hp ht
    unfold Collector.run_step
    rw [hp]
    simp [not_lt.2 ht]
  · intro t' e hp
    constructor
    · unfold Collector.run_step
      rw [hp]
      have htake : ∀ extra : List FlowRecord,
          ((s.emitted ++ Collector._process_export e) ++ extra).take
              (s.emitted.length + (Collector._process_export e).length) =
            s.emitted ++ Collector._process_export e := by
        intro extra
        rw [← List.length_append]
        exact List.take_left _ _
      dsimp only
      split
      · obtain ⟨extra, hextra⟩ :=
          Collector.retrySweep_emitted_extends s.to_retry t'
            (s.emitted ++ Collector._process_export e)
        rcases hsw : Collector.retrySweep t' s.to_retry (s.emitted ++ Collector._process_export e)
          with ⟨t₂, em₂, crashed⟩
        rw [hsw] at hextra
        dsimp at hextra
        cases crashed
        · simpa [hextra, List.append_assoc] using htake extra
        · simpa [hextra, List.append_assoc] using htake extra
      · simpa using htake []
    · simp [Collector._process_export]

/-- An empty loop state for the C6 witness. -/
def c6s : Collector.CState := ⟨⟨[], []⟩, [], []⟩

/-- A packet with the unrecognized wire version 3. -/
def c6p1 : Packet := ⟨0, 3, [], [], 0, 0, []⟩

/-- An IPFIX (v10) packet referencing the unknown template 9. -/
def c6p2 : Packet := ⟨0, 10, [], [9], 0, 0, []⟩

/-- A v5 packet with one data record using the v6 address pair. -/
def c6p3 : Packet := ⟨0, 5, [], [], 1000, 100, [⟨some 6, 20, 21, 30, 31, 1111, 22, 6, 10, 20⟩]⟩

/-- The export `parse_packet` yields for `c6p3`. -/
def c6e3 : Export := ⟨⟨5, 1000, 100⟩, [⟨some 6, 20, 21, 30, 31, 1111, 22, 6, 10, 20⟩], false⟩

/-- Witness for `c6_initial_decode_trichotomy`, exercising all three branches
at concrete packets. -/
theorem c6_initial_decode_trichotomy_witness :
    Collector.run_step c6s 0 c6p1 = (c6s, false) ∧
    Collector.run_step c6s 0 c6p2 = ({ c6s with to_retry := [c6p2] }, false) ∧
    (((Collector.run_step c6s 0 c6p3).1.emitted).take
        (c6s.emitted.length + (Collector._process_export c6e3).length) =
      c6s.emitted ++ Collector._process_export c6e3 ∧
      (Collector._process_export c6e3).length = c6e3.flows.length) :=
  ⟨(c6_initial_decode_trichotomy c6s 0 c6p1).1 (by decide),
   (c6_initial_decode_trichotomy c6s 0 c6p2).2.1 (by decide) (by decide),
   (c6_initial_decode_trichotomy c6s 0 c6p3).2.2 ⟨[], []⟩ c6e3 (by decide)⟩

/-- C9: the i-th emitted record of `_process_export` has
`start_time = (device_timestamp - device_uptime) + FIRST_SWITCHED` and
`end_time = (device_timestamp - device_uptime) + LAST_SWITCHED`, taking the
header fields from the export containing the record. -/
theorem c9_flow_times_from_boot_time (e : Export) (i : Nat) (hi : i < e.flows.length) :
    ((Collector._process_export e).getD i default).start_time =
      (e.header.timestamp - e.header.uptime) + (e.flows.getD i default).first_switched ∧
    ((Collector._process_export e).getD i default).end_time =
      (e.header.timestamp - e.header.uptime) + (e.flows.getD i default).last_switched := by
  set f : NFRecord := e.flows.get ⟨i, hi⟩ with hfdef
  have hf : e.flows.get? i = some f := List.get?_eq_get hi
  have hmap : (Collector._process_export e).get? i =
      ((e.flows.get? i).map fun f =>
        if f.ip_protocol_version = none ∨ f.ip_protocol_version = some 4 then
          (⟨f.ipv4_src_addr, f.ipv4_dst_addr, f.l4_src_port, f.l4_dst_port, f.protocol,
            f.first_switched + (e.header.timestamp - e.header.uptime),
            f.last_switched + (e.header.timestamp - e.header.uptime)⟩ : FlowRecord)
        else
          ⟨f.ipv6_src_addr, f.ipv6_dst_addr, f.l4_src_port, f.l4_dst_port, f.protocol,
            f.first_switched + (e.header.timestamp - e.header.uptime),
            f.last_switched + (e.header.timestamp - e.header.uptime)⟩) := by
    simp [Collector._process_export, List.get?_map]
  rw [List.getD_eq_get?, List.getD_eq_get?, hf, hmap, hf]
  by_cases h4 : f.ip_protocol_version = none ∨ f.ip_protocol_version = some 4
  · simp [h4, Int.add_comm]
  · simp [h4, Int.add_comm]

/-- A one-record export for the C9 witness. -/
def c9e : Export := ⟨⟨9, 1000, 100⟩, [⟨some 4, 1, 2, 0, 0, 1234, 22, 6, 10, 20⟩], false⟩

/-- Witness for `c9_flow_times_from_boot_time` on `c9e`. -/
theorem c9_flow_times_from_boot_time_witness :
    ((Collector._process_export c9e).getD 0 default).start_time =
      (c9e.header.timestamp - c9e.header.uptime) + (c9e.flows.getD 0 default).first_switched ∧
    ((Collector._process_export c9e).getD 0 default).end_time =
      (c9e.header.timestamp - c9e.header.uptime) + (c9e.flows.getD 0 default).last_switched :=
  c9_flow_times_from_boot_time c9e 0 (by decide)

/-- Normalised unordered key of an edge between `u` and `v`. -/
def edgeKey (u v : Nat) : Nat × Nat :=
  if u ≤ v then (u, v) else (v, u)

/-- The key does not depend on the argument order. -/
theorem edgeKey_comm (u v : Nat) : edgeKey v u = edgeKey u v := by
  unfold edgeKey
  rcases Nat.lt_trichotomy u v with h | h | h
  · rw [if_neg (by omega), if_pos (by omega)]
  · subst h
    rfl
  · rw [if_pos (by omega), if_neg (by omega)]

/-- Model of an undirected `networkx.Graph` as built by `FlowFinder`: a node
list and an edge list keyed by the unordered address pair, each edge carrying
its string label (the `object` attribute).  Modelled after the library's
documented behaviour: `add_node` is idempotent, an edge `(u, v)` is the same
object as `(v, u)`, and `add_edge` on an existing pair overwrites its
attributes (so at most one edge per unordered pair ever exists). -/
structure NXGraph where
  nodes : List Nat
  edges : List ((Nat × Nat) × String)
  deriving DecidableEq, Repr

/-- `networkx.Graph.add_node`: appends the node unless already present. -/
def NXGraph.add_node (g : NXGraph) (u : Nat) : NXGraph :=
  if u ∈ g.nodes then g else { g with nodes := g.nodes ++ [u] }

/-- `networkx.Graph.add_nodes_from` (analytics.py lines 67 and 93). -/
def NXGraph.add_nodes_from (g : NXGraph) (us : List Nat) : NXGraph :=
  us.foldl NXGraph.add_node g

/-- `networkx.Graph.add_edge` with an `object` label (analytics.py lines 68 and
94): both endpoints become nodes, any previous edge on the same unordered pair
is replaced, and the new label is stored. -/
def NXGraph.add_edge (g : NXGraph) (u v : Nat) (label : String) : NXGraph :=
  { nodes := ((g.add_node u).add_node v).nodes,
    edges := g.edges.filter (fun e => decide (e.1 ≠ edgeKey u v)) ++ [(edgeKey u v, label)] }

/-- Filtering for a key right after everything with that key was filtered away
yields nothing. -/
theorem filter_key_of_filter_ne (l : List ((Nat × Nat) × String)) (k : Nat × Nat) :
    (l.filter (fun e => decide (e.1 ≠ k))).filter (fun e => decide (e.1 = k)) = [] := by
  induction l with
  | nil => rfl
  | cons e rest ih =>
    by_cases he : e.1 = k
    · simpa [List.filter, he] using ih
    · simpa [List.filter, he] using ih

/-- Adding an edge keeps the edge keys pairwise distinct. -/
theorem add_edge_keys_nodup (g : NXGraph) (u v : Nat) (label : String)
    (h : (g.edges.map Prod.fst).Nodup) :
    (((g.add_edge u v label).edges).map Prod.fst).Nodup := by
  unfold NXGraph.add_edge
  rw [List.map_append, List.nodup_append]
  refine ⟨?_, by simp, ?_⟩
  · exact h.sublist ((List.filter_sublist g.edges).map Prod.fst)
  · intro a ha hb
    simp at hb
    subst hb
    obtain ⟨e, he, hfst⟩ := List.mem_map.1 ha
    have := List.of_mem_filter he
    simp [hfst] at this

/-- Filtering the edges of `add_edge u v label` for the key `{u, v}` finds
exactly the new edge. -/
theorem add_edge_filter_key (g : NXGraph) (u v : Nat) (label : String) :
    ((g.add_edge u v label).edges.filter (fun e => decide (e.1 = edgeKey u v))) =
      [(edgeKey u v, label)] := by
  unfold NXGraph.add_edge
  dsimp only
  rw [List.filter_append, filter_key_of_filter_ne]
  simp

/-- C10: edges of a traversal graph are undirected with at most one edge per
unordered address pair.  After adding an edge for `A -> B` and later one for
`B -> A` (with another label), exactly one edge exists on the unordered pair
`{A, B}` and its label is the last one added; and `add_edge` keeps the edge
keys pairwise distinct. -/
theorem c10_undirected_single_edge_last_label (g : NXGraph) (A B : Nat) (l₁ l₂ : String)
    (h : (g.edges.map Prod.fst).Nodup) :
    (((g.add_edge A B l₁).add_edge B A l₂).edges.filter
        (fun e => decide (e.1 = edgeKey A B))) = [(edgeKey A B, l₂)] ∧
    ((((g.add_edge A B l₁).add_edge B A l₂).edges.map Prod.fst)).Nodup := by
  constructor
  · rw [← edgeKey_comm A B]
    exact add_edge_filter_key (g.add_edge A B l₁) B A l₂
  · exact add_edge_keys_nodup _ B A l₂ (add_edge_keys_nodup g A B l₁ h)

/-- Witness for `c10_undirected_single_edge_last_label` starting from the empty
graph with the labels used by `FlowFinder`. -/
theorem c10_undirected_single_edge_last_label_witness :
    ((((⟨[], []⟩ : NXGraph).add_edge 1 2 "SSH").add_edge 2 1 "RDP (TCP)").edges.filter
        (fun e => decide (e.1 = edgeKey 1 2))) = [(edgeKey 1 2, "RDP (TCP)")] ∧
    (((((⟨[], []⟩ : NXGraph).add_edge 1 2 "SSH").add_edge 2 1 "RDP (TCP)").edges.map
        Prod.fst)).Nodup :=
  c10_undirected_single_edge_last_label ⟨[], []⟩ 1 2 "SSH" "RDP (TCP)" (by decide)

/-- `FlowFinder.INTERESTING_PROTOCOLS` (analytics.py lines 29-35). -/
def INTERESTING_PROTOCOLS : List (Nat × Nat × String) :=
  [(6, 22, "SSH"), (6, 3389, "RDP (TCP)"), (17, 3389, "RDP (UDP)"),
   (6, 5985, "WinRM"), (6, 5986, "WinRM (TLS)")]

/-- All addresses occurring in the store (sources and destinations). -/
def addrs (db : List Flow) : List Nat :=
  db.bind fun f => [f.source_address, f.destination_address]

/-- The addresses of the store as a finite set. -/
def addrsFinset (db : List Flow) : Finset Nat :=
  (addrs db).toFinset

mutual

/-- `FlowFinder._find_child_flows` (analytics.py lines 45-72), with the two
in-place-mutated objects (the graph and the `seen_nodes` set) threaded
explicitly and the unbounded Python recursion instrumented with a `fuel` depth
bound: `none` means the call would need to nest deeper than `fuel` recursive
invocations.  A parent already in `seen` returns immediately; otherwise it is
marked seen and, for every interesting (protocol, port, label) triple, every
flow of the deep search rooted at the parent adds its endpoints and edge to the
graph and recurses on the flow's destination address. -/
def findChildFlows (db : List Flow) (tstart tend : Int) (fuel : Nat) (parent : Nat)
    (graph : NXGraph) (seen : Finset Nat) : Option (NXGraph × Finset Nat) :=
  match fuel with
  | 0 => none
  | Nat.succ n =>
    if parent ∈ seen then some (graph, seen)
    else findChildTriples db tstart tend n INTERESTING_PROTOCOLS parent graph
      (insert parent seen)
termination_by (fuel, 0, 0)

/-- The `for protocol, port, label in self.INTERESTING_PROTOCOLS` loop of
`_find_child_flows` (analytics.py lines 60-62). -/
def findChildTriples (db : List Flow) (tstart tend : Int) (fuel : Nat)
    (triples : List (Nat × Nat × String)) (parent : Nat) (graph : NXGraph)
    (seen : Finset Nat) : Option (NXGraph × Finset Nat) :=
  match triples with
  | [] => some (graph, seen)
  | t :: rest =>
    match findChildList db tstart tend fuel t.2.2
        (AnalyticsFlowStore.get_interseting_flows_deep db t.1 t.2.1 parent tstart tend)
        graph seen with
    | none => none
    | some (g', seen') => findChildTriples db tstart tend fuel rest parent g' seen'
termination_by (fuel, 2, triples.length)

/-- The `for flow in self.store.get_interseting_flows_deep(...)` loop of
`_find_child_flows` (analytics.py lines 62-72): add both endpoints and the
labelled edge, then recurse on the destination address. -/
def findChildList (db : List Flow) (tstart tend : Int) (fuel : Nat) (label : String)
    (flows : List Flow) (graph : NXGraph) (seen : Finset Nat) :
    Option (NXGraph × Finset Nat) :=
  match flows with
  | [] => some (graph, seen)
  | f :: rest =>
    let g₁ := (graph.add_nodes_from [f.source_address, f.destination_address]).add_edge
      f.source_address f.destination_address label
    match findChildFlows db tstart tend fuel f.destination_address g₁ seen with
    | none => none
    | some (g₂, seen₂) => findChildList db tstart tend fuel label rest g₂ seen₂
termination_by (fuel, 1, flows.length)

end

/-- Destinations of deep-search results are addresses of the store. -/
theorem deep_dest_mem_addrs (db : List Flow) (protocol port parent : Nat)
    (tstart tend : Int) (f : Flow)
    (hf : f ∈ AnalyticsFlowStore.get_interseting_flows_deep db protocol port parent tstart tend) :
    f.destination_address ∈ addrsFinset db := by
  have hdb : f ∈ db := (List.mem_filter.1 hf).1
  simp only [addrsFinset, addrs, List.mem_toFinset, List.mem_bind]
  exact ⟨f, hdb, by simp⟩

/-- Growing the visited set cannot grow the unvisited remainder. -/
theorem card_sdiff_mono_of_subset {univ s t : Finset Nat} (h : s ⊆ t) :
    (univ \ t).card ≤ (univ \ s).card :=
  Finset.card_le_card (Finset.sdiff_subset_sdiff (Finset.Subset.refl _) h)

/-- Totality of the traversal: whenever the parent is an address of the store
and the fuel exceeds the number of store addresses not yet visited, the
traversal returns a result (and only ever grows the visited set). -/
theorem findChildFlows_total (db : List Flow) (tstart tend : Int) :
    ∀ (fuel : Nat) (parent : Nat) (graph : NXGraph) (seen : Finset Nat),
      parent ∈ addrsFinset db →
      (addrsFinset db \ seen).card < fuel →
      ∃ g' seen', findChildFlows db tstart tend fuel parent graph seen = some (g', seen') ∧
        seen ⊆ seen' := by
  intro fuel
  induction fuel with
  | zero => exact fun parent graph seen _ hcard => absurd hcard (Nat.not_lt_zero _)
  | succ n ih =>
    have hlist : ∀ (flows : List Flow) (label : String) (graph : NXGraph) (seen : Finset Nat),
        (∀ f ∈ flows, f.destination_address ∈ addrsFinset db) →
        (addrsFinset db \ seen).card < n →
        ∃ g' seen',
          findChildList db tstart tend n label flows graph seen = some (g', seen') ∧
            seen ⊆ seen' := by
      intro flows
      induction flows with
      | nil =>
        exact fun label graph seen _ _ =>
          ⟨graph, seen, by simp [findChildList], Finset.Subset.refl _⟩
      | cons f rest ihf =>
        intro label graph seen hmem hcard
        obtain ⟨g₁, s₁, h₁, hsub₁⟩ :=
          ih f.destination_address
            ((graph.add_nodes_from [f.source_address, f.destination_address]).add_edge
              f.source_address f.destination_address label)
            seen (hmem f (by simp)) hcard
        obtain ⟨g₂, s₂, h₂, hsub₂⟩ :=
          ihf label g₁ s₁ (fun f' hf' => hmem f' (by simp [hf']))
            (Nat.lt_of_le_of_lt (card_sdiff_mono_of_subset hsub₁) hcard)
        refine ⟨g₂, s₂, ?_, hsub₁.trans hsub₂⟩
        simp only [findChildList, h₁]
        exact h₂
    have htriples : ∀ (ts : List (Nat × Nat × String)) (parent : Nat) (graph : NXGraph)
        (seen : Finset Nat),
        (addrsFinset db \ seen).card < n →
        ∃ g' seen',
          findChildTriples db tstart tend n ts parent graph seen = some (g', seen') ∧
            seen ⊆ seen' := by
      intro ts
      induction ts with
      | nil =>
        exact fun parent graph seen _ =>
          ⟨graph, seen, by simp [findChildTriples], Finset.Subset.refl _⟩
      | cons t rest iht =>
        intro parent graph seen hcard
        obtain ⟨g₁, s₁, h₁, hsub₁⟩ :=
          hlist (AnalyticsFlowStore.get_interseting_flows_deep db t.1 t.2.1 parent tstart tend)
            t.2.2 graph seen
            (fun f hf => deep_dest_mem_addrs db t.1 t.2.1 parent tstart tend f hf) hcard
        obtain ⟨g₂, s₂, h₂, hsub₂⟩ :=
          iht parent g₁ s₁ (Nat.lt_of_le_of_lt (card_sdiff_mono_of_subset hsub₁) hcard)
        refine ⟨g₂, s₂, ?_, hsub₁.trans hsub₂⟩
        simp only [findChildTriples, h₁]
        exact h₂
    intro parent graph seen hparent hcard
    by_cases hseen : parent ∈ seen
    · exact ⟨graph, seen, by simp [findChildFlows, hseen], Finset.Subset.refl _⟩
    · have hmem : parent ∈ addrsFinset db \ seen := Finset.mem_sdiff.2 ⟨hparent, hseen⟩
      have herase : addrsFinset db \ insert parent seen =
          (addrsFinset db \ seen).erase parent := by
        ext a
        simp only [Finset.mem_sdiff, Finset.mem_insert, Finset.mem_erase]
        tauto
      have hkey : (addrsFinset db \ insert parent seen).card < n := by
        rw [herase, Finset.card_erase_of_mem hmem]
        have hpos : 0 < (addrsFinset db \ seen).card := Finset.card_pos.2 ⟨parent, hmem⟩
        omega
      obtain ⟨g', s', h', hsub'⟩ :=
        htriples INTERESTING_PROTOCOLS parent graph (insert parent seen) hkey
      refine ⟨g', s', ?_, (Finset.subset_insert parent seen).trans hsub'⟩
      simp only [findChildFlows, hseen, if_false]
      exact h'

/-- C8: the recursive traversal of `FlowFinder._find_child_flows` terminates on
every finite store, flow cycles included.  An address already in the visited
set is never expanded again (the call returns at once, leaving graph and
visited set unchanged), and the recursion depth is bounded by the number of
distinct store addresses not yet visited: any fuel beyond that bound is enough
for the traversal to complete. -/
theorem c8_traversal_terminates_visits_once (db : List Flow) (tstart tend : Int)
    (fuel parent : Nat) (graph : NXGraph) (seen : Finset Nat) :
    (parent ∈ seen →
      findChildFlows db tstart tend (fuel + 1) parent graph seen = some (graph, seen)) ∧
    (parent ∈ addrsFinset db → (addrsFinset db \ seen).card < fuel →
      (findChildFlows db tstart tend fuel parent graph seen).isSome = true) := by
  constructor
  · intro hseen
    simp [findChildFlows, hseen]
  · intro hparent hcard
    obtain ⟨g', s', h', -⟩ :=
      findChildFlows_total db tstart tend fuel parent graph seen hparent hcard
    rw [h']
    rfl

/-- A flow cycle: `1 -> 2` and `2 -> 1`, both TCP destination port 22. -/
def c8db : List Flow := [⟨1, 2, 40000, 22, 6, 0, 10⟩, ⟨2, 1, 40001, 22, 6, 0, 10⟩]

/-- Witness for `c8_traversal_terminates_visits_once` on the cyclic store
`c8db`: a visited parent returns immediately, and fuel 3 (one more than the two
distinct addresses) completes the whole traversal from address 2. -/
theorem c8_traversal_terminates_visits_once_witness :
    findChildFlows c8db 0 10 5 2 ⟨[], []⟩ {2} = some (⟨[], []⟩, {2}) ∧
    (findChildFlows c8db 0 10 3 2 ⟨[], []⟩ ∅).isSome = true :=
  ⟨(c8_traversal_terminates_visits_once c8db 0 10 4 2 ⟨[], []⟩ {2}).1 (by decide),
   (c8_traversal_terminates_visits_once c8db 0 10 3 2 ⟨[], []⟩ ∅).2 (by decide) (by decide)⟩

end FlowGraph
